import Mathlib

/-!
Verification of the shuttle load balancer (github.com/HadokenCode/shuttle).

The Go sources are shallowly embedded: pure functions become Lean
functions, mutation of a struct becomes explicit state passing, and the
side effects relevant to the claims (stopping/starting backends, error
logging) are returned as explicit event traces.  Go `int`/`int64`
arithmetic on `time.Duration` values is modelled on `Int` with an
explicit wrap to the signed 64-bit range where multiplication can
overflow.  Go maps (`map[string][]int`) are modelled as association
lists; Go byte slices as `String`.
-/

set_option autoImplicit false

namespace Shuttle

/-- Wrap an unbounded integer into the signed 64-bit range, the way Go
`int64` arithmetic overflows. -/
def wrap64 (x : Int) : Int := (x + 2 ^ 63) % 2 ^ 64 - 2 ^ 63

/-- Go `time.Duration(ms) * time.Millisecond`: milliseconds to a
nanosecond count, with 64-bit wrap-around. -/
def msToDur (ms : Int) : Int := wrap64 (ms * 1000000)

/-- Go `int(d / time.Millisecond)`: nanoseconds back to milliseconds.
Go integer division truncates toward zero, which is `Int.tdiv`. -/
def durToMs (d : Int) : Int := d.tdiv 1000000

/-- `map[string][]int` from the Go sources (`ErrorPages`), modelled as an
association list. -/
abbrev ErrorPagesCfg := List (String × List Int)

/-- `client.BackendConfig` (client package). -/
structure BackendConfig where
  Name : String
  Addr : String
  CheckAddr : String
  Weight : Int
  Network : String
deriving DecidableEq, Repr, Inhabited

/-- `client.BackendConfig.Equal`: normalises the weight and network
defaults on both arguments, then compares all fields. -/
def BackendConfig.Equal (b other : BackendConfig) : Bool :=
  let other := if other.Weight = 0 then { other with Weight := 1 } else other
  let b := if b.Weight = 0 then { b with Weight := 1 } else b
  let b := if b.Network = "" then { b with Network := "tcp" } else b
  let other := if other.Network = "" then { other with Network := "tcp" } else other
  b == other

/-- `client.ServiceConfig` (client package). -/
structure ServiceConfig where
  Name : String
  Addr : String
  VirtualHosts : List String
  Balance : String
  CheckInterval : Int
  Fall : Int
  Rise : Int
  ClientTimeout : Int
  ServerTimeout : Int
  DialTimeout : Int
  ErrorPages : ErrorPagesCfg
  Network : String
  Backends : List BackendConfig
deriving DecidableEq, Repr, Inhabited

/-- `client.ServiceConfig.Equal`: compare two service configs ignoring
backends.  Mirrors the Go source exactly: balance, check interval, rise
and fall are default-normalised on both arguments, but the network
default is applied only to the receiver `s`, not to `other`. -/
def ServiceConfig.Equal (s other : ServiceConfig) : Bool :=
  let s := { s with Backends := [] }
  let other := { other with Backends := [] }
  let other :=
    if s.Balance ≠ other.Balance then
      if s.Balance = "" ∧ other.Balance = "RR" then { other with Balance := "" }
      else if s.Balance = "RR" ∧ other.Balance = "" then { other with Balance := "RR" }
      else other
    else other
  let s := if s.CheckInterval = 0 then { s with CheckInterval := 2000 } else s
  let other := if other.CheckInterval = 0 then { other with CheckInterval := 2000 } else other
  let s := if s.Rise = 0 then { s with Rise := 2 } else s
  let other := if other.Rise = 0 then { other with Rise := 2 } else other
  let s := if s.Fall = 0 then { s with Fall := 2 } else s
  let other := if other.Fall = 0 then { other with Fall := 2 } else other
  let s := if s.Network = "" then { s with Network := "tcp" } else s
  s == other

/-- `client.ServiceConfig.DeepEqual`: equality including backends.  The
Go source checks list lengths, then `Equal`, then for each backend of
`s` scans `other`'s backends for the first one with the same name; a
backend of `s` whose name occurs nowhere in `other` is silently
skipped. -/
def ServiceConfig.DeepEqual (s other : ServiceConfig) : Bool :=
  if s.Backends.length ≠ other.Backends.length then false
  else if ¬ s.Equal other then false
  else s.Backends.all fun a =>
    match other.Backends.find? (fun b => a.Name == b.Name) with
    | some b => a.Equal b
    | none => true

/-- Result of `writeStateConfig`: whether a write happened, and the state
file contents afterwards. -/
structure WriteStateResult where
  wrote : Bool
  file : String
deriving DecidableEq, Repr

/-- `writeStateConfig` from config.go.  `cfg` is the marshalled current
registry configuration (`marshal(Registry.Config())`, opaque bytes here)
and `lastCfg` the current contents of the state file (empty when the
read fails, matching the ignored `ReadFile` error). -/
def writeStateConfig (stateConfig : String) (cfg : String) (lastCfg : String) :
    WriteStateResult :=
  if stateConfig = "" then ⟨false, lastCfg⟩
  else if cfg.length = 0 then ⟨false, lastCfg⟩
  else if cfg = lastCfg then ⟨false, lastCfg⟩
  else ⟨true, cfg⟩

/-- Modelled from the spec: the Backend struct lives in backend.go,
which is not among the provided sources.  Its fields are reconstructed
from §3 of the spec and from the field accesses in service.go
(`up`, `rwTimeout`, `dialTimeout`, `checkInterval`, and the counters). -/
structure Backend where
  Name : String
  Addr : String
  CheckAddr : String
  Weight : Int
  Network : String
  Sent : Int
  Rcvd : Int
  Errors : Int
  Conns : Int
  Active : Int
  HTTPActive : Int
  up : Bool
  rwTimeout : Int
  dialTimeout : Int
  checkInterval : Int
deriving DecidableEq, Repr, Inhabited

/-- Modelled from the spec: `NewBackend` (backend.go is missing from
src/).  Per §6.1 the weight defaults to 1 and the network to `tcp`;
counters start at zero and the service-derived fields are filled in by
`Service.add`. -/
def NewBackend (cfg : BackendConfig) : Backend :=
  { Name := cfg.Name, Addr := cfg.Addr, CheckAddr := cfg.CheckAddr,
    Weight := if cfg.Weight = 0 then 1 else cfg.Weight,
    Network := if cfg.Network = "" then "tcp" else cfg.Network,
    Sent := 0, Rcvd := 0, Errors := 0, Conns := 0, Active := 0,
    HTTPActive := 0, up := false, rwTimeout := 0, dialTimeout := 0,
    checkInterval := 0 }

/-- Modelled from the spec: `Backend.Config` snapshots the §6.1
configuration fields of a backend (backend.go is missing from src/). -/
def Backend.Config (b : Backend) : BackendConfig :=
  ⟨b.Name, b.Addr, b.CheckAddr, b.Weight, b.Network⟩

/-- Modelled from the spec: the per-backend stats snapshot returned by
`Backend.Stats` (backend.go is missing from src/); only the counters
matter to the claims. -/
structure BackendStat where
  Name : String
  Addr : String
  Sent : Int
  Rcvd : Int
  Errors : Int
  Conns : Int
  Active : Int
deriving DecidableEq, Repr

/-- Modelled from the spec: `Backend.Stats` snapshots the counters. -/
def Backend.Stats (b : Backend) : BackendStat :=
  ⟨b.Name, b.Addr, b.Sent, b.Rcvd, b.Errors, b.Conns, b.Active⟩

/-- Side effects performed on individual backends by the service.go
backend-list operations, recorded as an explicit trace. -/
inductive BEvent where
  | started (name : String)
  | stopped (name : String)
  | mismatchLogged (name : String)
deriving DecidableEq, Repr

/-- The Service struct of service.go.  The I/O handles (listeners, the
reverse proxy, the dialer) and the `next` function value do not bear on
the claims and are omitted; the duration fields are nanosecond counts,
as Go `time.Duration`. -/
structure Service where
  Name : String
  Addr : String
  VirtualHosts : List String
  Backends : List Backend
  Balance : String
  CheckInterval : Int
  Fall : Int
  Rise : Int
  ClientTimeout : Int
  ServerTimeout : Int
  DialTimeout : Int
  Sent : Int
  Rcvd : Int
  Errors : Int
  HTTPConns : Int
  HTTPErrors : Int
  HTTPActive : Int
  Network : String
  lastBackend : Int
  lastCount : Int
  errPagesCfg : ErrorPagesCfg
deriving Repr, Inhabited

/-- The replace-or-append loop of `Service.add`: the first backend with
the same name is stopped and replaced in its slot; otherwise the new
backend is appended.  The new backend is started either way. -/
def addLoop (nb : Backend) : List Backend → List Backend × List BEvent
  | [] => ([nb], [.started nb.Name])
  | b :: rest =>
    if b.Name = nb.Name then
      (nb :: rest, [.stopped b.Name, .started nb.Name])
    else
      let r := addLoop nb rest
      (b :: r.1, r.2)

/-- The field assignments at the top of `Service.add`: marks the new
backend up and copies the service's timeout and check-interval settings
onto it. -/
def fillFromService (s : Service) (b : Backend) : Backend :=
  { b with
    up := true, rwTimeout := s.ServerTimeout,
    dialTimeout := s.DialTimeout, checkInterval := msToDur s.CheckInterval }

/-- `Service.add` from service.go: fills the service-derived fields of
the backend, logs (but only logs) a network-family mismatch between the
first three bytes of the service and backend networks, then replaces an
existing backend of the same name in place or appends. -/
def Service.add (s : Service) (backend : Backend) : Service × List BEvent :=
  let backend := fillFromService s backend
  let mismatch : List BEvent :=
    if s.Network.take 3 ≠ backend.Network.take 3 then
      [.mismatchLogged backend.Name]
    else []
  let r := addLoop backend s.Backends
  ({ s with Backends := r.1 }, mismatch ++ r.2)

/-- `Service.remove` from service.go: finds the first backend with the
given name, swaps the last list entry into its slot, truncates by one,
and stops the removed backend.  Returns whether a backend was found. -/
def Service.remove (s : Service) (name : String) :
    Service × Bool × List BEvent :=
  match s.Backends.findIdx? (fun b => b.Name == name) with
  | none => (s, false, [])
  | some i =>
    let bs := s.Backends
    let deleted := bs.getD i default
    let bs2 := (bs.set i (bs.getD (bs.length - 1) default)).dropLast
    ({ s with Backends := bs2 }, true, [.stopped deleted.Name])

/-- `NewService` from service.go: copies the config fields, converts the
millisecond timeouts to durations, applies the check-interval, rise,
fall and network defaults, then adds a backend for each backend
config. -/
def NewService (cfg : ServiceConfig) : Service :=
  let s : Service := {
    Name := cfg.Name, Addr := cfg.Addr, Balance := cfg.Balance,
    CheckInterval := cfg.CheckInterval, Fall := cfg.Fall, Rise := cfg.Rise,
    VirtualHosts := cfg.VirtualHosts,
    ClientTimeout := msToDur cfg.ClientTimeout,
    ServerTimeout := msToDur cfg.ServerTimeout,
    DialTimeout := msToDur cfg.DialTimeout,
    errPagesCfg := cfg.ErrorPages,
    Network := cfg.Network,
    Backends := [], Sent := 0, Rcvd := 0, Errors := 0, HTTPConns := 0,
    HTTPErrors := 0, HTTPActive := 0, lastBackend := 0, lastCount := 0 }
  let s := if s.CheckInterval = 0 then { s with CheckInterval := 2000 } else s
  let s := if s.Rise = 0 then { s with Rise := 2 } else s
  let s := if s.Fall = 0 then { s with Fall := 2 } else s
  let s := if s.Network = "" then { s with Network := "tcp" } else s
  cfg.Backends.foldl (fun s b => (s.add (NewBackend b)).1) s

/-- `Service.Config` from service.go: the configuration snapshot,
converting durations back to milliseconds and taking each backend's
config in list order. -/
def Service.Config (s : Service) : ServiceConfig :=
  { Name := s.Name, Addr := s.Addr, VirtualHosts := s.VirtualHosts,
    Balance := s.Balance, CheckInterval := s.CheckInterval, Fall := s.Fall,
    Rise := s.Rise, ClientTimeout := durToMs s.ClientTimeout,
    ServerTimeout := durToMs s.ServerTimeout,
    DialTimeout := durToMs s.DialTimeout, ErrorPages := s.errPagesCfg,
    Network := s.Network, Backends := s.Backends.map Backend.Config }

/-- The stats struct of service.go (`ServiceStat`). -/
structure ServiceStat where
  Name : String
  Addr : String
  VirtualHosts : List String
  Backends : List BackendStat
  Balance : String
  CheckInterval : Int
  Fall : Int
  Rise : Int
  ClientTimeout : Int
  ServerTimeout : Int
  DialTimeout : Int
  Sent : Int
  Rcvd : Int
  Errors : Int
  Conns : Int
  Active : Int
  HTTPActive : Int
  HTTPConns : Int
  HTTPErrors : Int
deriving Repr

/-- The aggregation loop of `Service.Stats`: appends each backend's
stats snapshot and adds its counters into the running totals. -/
def statsLoop (st : ServiceStat) : List Backend → ServiceStat
  | [] => st
  | b :: rest =>
    statsLoop
      { st with Backends := st.Backends ++ [b.Stats],
                Sent := st.Sent + b.Sent, Rcvd := st.Rcvd + b.Rcvd,
                Errors := st.Errors + b.Errors, Conns := st.Conns + b.Conns,
                Active := st.Active + b.Active }
      rest

/-- `Service.Stats` from service.go.  The struct literal initialises
`Sent` and `Rcvd` from the service's own counters and leaves `Errors`,
`Conns` and `Active` at their zero values; the loop then adds every
backend's counters. -/
def Service.Stats (s : Service) : ServiceStat :=
  let stats : ServiceStat := {
    Name := s.Name, Addr := s.Addr, VirtualHosts := s.VirtualHosts,
    Balance := s.Balance, CheckInterval := s.CheckInterval, Fall := s.Fall,
    Rise := s.Rise, ClientTimeout := durToMs s.ClientTimeout,
    ServerTimeout := durToMs s.ServerTimeout,
    DialTimeout := durToMs s.DialTimeout,
    HTTPConns := s.HTTPConns, HTTPErrors := s.HTTPErrors,
    HTTPActive := s.HTTPActive, Rcvd := s.Rcvd, Sent := s.Sent,
    Backends := [], Errors := 0, Conns := 0, Active := 0 }
  statsLoop stats s.Backends

/-- `Service.UpdateDefaults` from service.go: overwrites each tunable
whose config value is non-zero and always returns nil. -/
def Service.UpdateDefaults (s : Service) (cfg : ServiceConfig) :
    Service × Option String :=
  let s := if cfg.CheckInterval ≠ 0 then { s with CheckInterval := cfg.CheckInterval } else s
  let s := if cfg.Fall ≠ 0 then { s with Fall := cfg.Fall } else s
  let s := if cfg.Rise ≠ 0 then { s with Rise := cfg.Rise } else s
  let s := if cfg.ClientTimeout ≠ 0 then { s with ClientTimeout := msToDur cfg.ClientTimeout } else s
  let s := if cfg.ServerTimeout ≠ 0 then { s with ServerTimeout := msToDur cfg.ServerTimeout } else s
  let s := if cfg.DialTimeout ≠ 0 then { s with DialTimeout := msToDur cfg.DialTimeout } else s
  (s, none)

/-- Outcome of one `Service.connectTCP` call: the candidate backends
after the walk, the backend (if any) that received the connection, and
whether the client connection was closed. -/
structure ConnectResult where
  backends : List Backend
  proxied : Option String
  clientClosed : Bool
  svcErrors : Int
deriving Repr

/-- `Service.connectTCP` from service.go.  The candidate list returned
by `s.next()` is the input, each candidate paired with whether dialling
it succeeds; a failed dial bumps that backend's error counter and the
walk moves on; on the first success the connection is handed to
`b.Proxy`; when every dial fails the client connection is closed and the
service error counter is left untouched. -/
def connectTCP (svcErrors : Int) : List (Backend × Bool) → ConnectResult
  | [] =>
    { backends := [], proxied := none, clientClosed := true,
      svcErrors := svcErrors }
  | (b, dialOk) :: rest =>
    if dialOk then
      { backends := b :: rest.map Prod.fst, proxied := some b.Name,
        clientClosed := false, svcErrors := svcErrors }
    else
      let r := connectTCP svcErrors rest
      { r with backends := { b with Errors := b.Errors + 1 } :: r.backends }

/-- Classification of a UDP receive error in `runUDP`: the listener was
closed, or the platform reports the error as temporary, or neither. -/
inductive RecvErr where
  | closed
  | temporary
  | permanent
deriving DecidableEq, Repr

/-- Classification of a UDP send error in `runUDP`. -/
inductive SendErr where
  | temporary
  | permanent
deriving DecidableEq, Repr

/-- One iteration's worth of I/O outcomes for the `runUDP` loop:
the receive result, whether `udpRoundRobin` found a backend, and the
send result together with the byte count written. -/
structure UdpEvent where
  recvN : Int
  recvErr : Option RecvErr
  backendFound : Bool
  sendErr : Option SendErr
  sentN : Int
deriving Repr

/-- The service counters touched by the `runUDP` loop. -/
structure UdpState where
  Rcvd : Int
  Sent : Int
  Errors : Int
deriving DecidableEq, Repr

/-- One iteration of the `runUDP` datagram loop from service.go; the
boolean result is whether the loop keeps running.  A closed listener
returns; a permanent receive error counts an error and returns; a
temporary receive error falls through to the empty-datagram check.  On
the send side a temporary error just continues, a permanent send error
counts an error and also continues, and a successful send adds the
written byte count. -/
def runUDPStep (s : UdpState) (e : UdpEvent) : UdpState × Bool :=
  match e.recvErr with
  | some .closed => (s, false)
  | some .permanent => ({ s with Errors := s.Errors + 1 }, false)
  | _ =>
    if e.recvN = 0 then (s, true)
    else
      let s := { s with Rcvd := s.Rcvd + e.recvN }
      if ¬ e.backendFound then (s, true)
      else
        match e.sendErr with
        | some .temporary => (s, true)
        | some .permanent => ({ s with Errors := s.Errors + 1 }, true)
        | none => ({ s with Sent := s.Sent + e.sentN }, true)

/-- A fresh TCP service used as a concrete evaluation point. -/
def tcpSvc : Service :=
  { (default : Service) with Name := "s1", Network := "tcp" }

/-- A backend declaring network `udp`, mismatching `tcpSvc`'s family. -/
def udpBackend : Backend :=
  { (default : Backend) with
    Name := "b1", Addr := "10.0.0.1:53", Network := "udp" }

/-- A service with five errors of its own and no backends. -/
def errOnlySvc : Service := { (default : Service) with Errors := 5 }

/-- A UDP loop event: a one-byte datagram received cleanly, a backend
found, and the send failing with a permanent (non-temporary) error. -/
def permSendEvt : UdpEvent :=
  { recvN := 1, recvErr := none, backendFound := true,
    sendErr := some .permanent, sentN := 0 }

/-- Concrete backend `a` for exercising the backend-list operations. -/
def wb1 : Backend :=
  { (default : Backend) with
    Name := "a", Addr := "10.0.0.1:80", Network := "tcp" }

/-- Concrete backend `b`. -/
def wb2 : Backend :=
  { (default : Backend) with
    Name := "b", Addr := "10.0.0.2:80", Network := "tcp" }

/-- Concrete backend `c`. -/
def wb3 : Backend :=
  { (default : Backend) with
    Name := "c", Addr := "10.0.0.3:80", Network := "tcp" }

/-- A service holding the two distinct-named backends `a` and `b`. -/
def twoBackendSvc : Service :=
  { (default : Service) with
    Name := "s2", Network := "tcp", Backends := [wb1, wb2] }

/-- A replacement for `wb2`: the same name at a different address. -/
def wb2r : Backend := { wb2 with Addr := "10.0.0.9:80" }

/-- Normalisation of a defaulted integer config field: `0` stands for the
default `d`. -/
def normDefault (d x : Int) : Int := if x = 0 then d else x

/-- The relation `ServiceConfig.Equal` uses on the balance field: equal,
or one side empty and the other the default `RR`. -/
def balanceDefaulted (x y : String) : Prop :=
  x = y ∨ (x = "" ∧ y = "RR") ∨ (x = "RR" ∧ y = "")

/-- A service config whose network field is left empty; used to exhibit
the asymmetric network normalisation in `ServiceConfig.Equal`. -/
def netEmptyCfg : ServiceConfig :=
  { Name := "svc", Addr := "127.0.0.1:9000", VirtualHosts := [],
    Balance := "RR", CheckInterval := 2000, Fall := 2, Rise := 2,
    ClientTimeout := 0, ServerTimeout := 0, DialTimeout := 0,
    ErrorPages := [], Network := "", Backends := [] }

/-- The same config with network written out as `tcp`. -/
def netTcpCfg : ServiceConfig := { netEmptyCfg with Network := "tcp" }

/-- `netTcpCfg` with the check interval and balance left at their zero
values, relying on the defaults. -/
def ciZeroCfg : ServiceConfig := { netTcpCfg with CheckInterval := 0, Balance := "" }

/-- The relation `ServiceConfig.Equal` effectively uses on an integer
field with default `d`: equal, or one side `0` and the other `d`. -/
def intDefaulted (d x y : Int) : Prop := x = y ∨ (x = 0 ∧ y = d) ∨ (x = d ∧ y = 0)

/-- The default-normalised service record that `NewService` folds its
backends into. -/
def newServiceInit (cfg : ServiceConfig) : Service :=
  { Name := cfg.Name, Addr := cfg.Addr, Balance := cfg.Balance,
    CheckInterval := if cfg.CheckInterval = 0 then 2000 else cfg.CheckInterval,
    Fall := if cfg.Fall = 0 then 2 else cfg.Fall,
    Rise := if cfg.Rise = 0 then 2 else cfg.Rise,
    VirtualHosts := cfg.VirtualHosts,
    ClientTimeout := msToDur cfg.ClientTimeout,
    ServerTimeout := msToDur cfg.ServerTimeout,
    DialTimeout := msToDur cfg.DialTimeout,
    errPagesCfg := cfg.ErrorPages,
    Network := if cfg.Network = "" then "tcp" else cfg.Network,
    Backends := [], Sent := 0, Rcvd := 0, Errors := 0, HTTPConns := 0,
    HTTPErrors := 0, HTTPActive := 0, lastBackend := 0, lastCount := 0 }

lemma ite_mk (c : Prop) [Decidable c] (n1 a1 : String) (v1 : List String)
    (b1 : String) (ci1 f1 r1 ct1 st1 dt1 : Int) (ep1 : ErrorPagesCfg)
    (nw1 : String) (bk1 : List BackendConfig) (n2 a2 : String)
    (v2 : List String) (b2 : String) (ci2 f2 r2 ct2 st2 dt2 : Int)
    (ep2 : ErrorPagesCfg) (nw2 : String) (bk2 : List BackendConfig) :
    (if c then
       ServiceConfig.mk n1 a1 v1 b1 ci1 f1 r1 ct1 st1 dt1 ep1 nw1 bk1
     else
       ServiceConfig.mk n2 a2 v2 b2 ci2 f2 r2 ct2 st2 dt2 ep2 nw2 bk2) =
      ServiceConfig.mk (if c then n1 else n2) (if c then a1 else a2)
        (if c then v1 else v2) (if c then b1 else b2) (if c then ci1 else ci2)
        (if c then f1 else f2) (if c then r1 else r2) (if c then ct1 else ct2)
        (if c then st1 else st2) (if c then dt1 else dt2) (if c then ep1 else ep2)
        (if c then nw1 else nw2) (if c then bk1 else bk2) := by
  split <;> rfl

lemma balance_component (x y : String) :
    (x = (if x ≠ y then
            (if x = "" ∧ y = "RR" then ""
             else if x = "RR" ∧ y = "" then "RR" else y)
          else y)) ↔ balanceDefaulted x y := by
  unfold balanceDefaulted
  split_ifs <;> simp_all

/-- Per-field characterisation of `ServiceConfig.Equal`.  Balance,
check interval, rise and fall are compared after normalising both
sides; the network default is applied to the first argument only. -/
lemma ServiceConfig.equal_spec (a b : ServiceConfig) :
    (a.Equal b = true) ↔
      (a.Name = b.Name ∧ a.Addr = b.Addr ∧ a.VirtualHosts = b.VirtualHosts ∧
       balanceDefaulted a.Balance b.Balance ∧
       normDefault 2000 a.CheckInterval = normDefault 2000 b.CheckInterval ∧
       normDefault 2 a.Fall = normDefault 2 b.Fall ∧
       normDefault 2 a.Rise = normDefault 2 b.Rise ∧
       a.ClientTimeout = b.ClientTimeout ∧ a.ServerTimeout = b.ServerTimeout ∧
       a.DialTimeout = b.DialTimeout ∧ a.ErrorPages = b.ErrorPages ∧
       (if a.Network = "" then "tcp" else a.Network) = b.Network) := by
  obtain ⟨an, aa, av, ab, aci, af, ar, act, ast, adt, aep, anet, abk⟩ := a
  obtain ⟨bn, ba, bv, bb, bci, bf, br, bct, bst, bdt, bep, bnet, bbk⟩ := b
  simp only [ServiceConfig.Equal, apply_ite ServiceConfig.Name,
    apply_ite ServiceConfig.Addr, apply_ite ServiceConfig.VirtualHosts,
    apply_ite ServiceConfig.Balance, apply_ite ServiceConfig.CheckInterval,
    apply_ite ServiceConfig.Fall, apply_ite ServiceConfig.Rise,
    apply_ite ServiceConfig.ClientTimeout, apply_ite ServiceConfig.ServerTimeout,
    apply_ite ServiceConfig.DialTimeout, apply_ite ServiceConfig.ErrorPages,
    apply_ite ServiceConfig.Network, apply_ite ServiceConfig.Backends, ite_mk,
    ite_self, beq_iff_eq, ServiceConfig.mk.injEq, normDefault, and_true,
    balance_component]

lemma balanceDefaulted_symm {x y : String} (h : balanceDefaulted x y) :
    balanceDefaulted y x := by
  unfold balanceDefaulted at h ⊢; tauto

lemma intDefaulted_normDefault {d x y : Int} (h : intDefaulted d x y) :
    normDefault d x = normDefault d y := by
  unfold intDefaulted at h
  unfold normDefault
  rcases h with h | ⟨h1, h2⟩ | ⟨h1, h2⟩ <;> subst_vars <;> split_ifs <;> omega

/-- C3, counterexample: `ServiceConfig.Equal` does not normalise the
network default on its second argument, so two configs that differ only
in writing the default network out as `tcp` compare equal in one
direction and unequal in the other; `Equal(a, b) = Equal(b, a)` fails. -/
theorem serviceConfig_Equal_network_asymmetric :
    ServiceConfig.Equal netEmptyCfg netTcpCfg = true ∧
    ServiceConfig.Equal netTcpCfg netEmptyCfg = false := by
  constructor <;> rfl

/-- C3, amended: the comparison normalises balance, check interval, rise
and fall on both arguments, but the empty-network default only on the
first argument; hence `Equal(a, b) = Equal(b, a)` holds whenever both
networks are written out non-empty, and a config that differs from
another only by defaulted balance, check-interval, rise or fall fields
compares equal in both directions (provided the shared network field is
non-empty; with an empty network on both sides `Equal` rejects even
identical configs). -/
theorem serviceConfig_Equal_amended :
    (∀ a b : ServiceConfig, ¬ a.Network = "" → ¬ b.Network = "" →
      a.Equal b = b.Equal a) ∧
    (∀ a b : ServiceConfig,
      a.Name = b.Name → a.Addr = b.Addr → a.VirtualHosts = b.VirtualHosts →
      balanceDefaulted a.Balance b.Balance →
      intDefaulted 2000 a.CheckInterval b.CheckInterval →
      intDefaulted 2 a.Fall b.Fall → intDefaulted 2 a.Rise b.Rise →
      a.ClientTimeout = b.ClientTimeout → a.ServerTimeout = b.ServerTimeout →
      a.DialTimeout = b.DialTimeout → a.ErrorPages = b.ErrorPages →
      a.Network = b.Network → ¬ a.Network = "" →
      (a.Equal b = true ∧ b.Equal a = true)) := by
  constructor
  · intro a b hna hnb
    have h1 := ServiceConfig.equal_spec a b
    have h2 := ServiceConfig.equal_spec b a
    rw [if_neg hna] at h1
    rw [if_neg hnb] at h2
    rw [Bool.eq_iff_iff, h1, h2]
    constructor
    · rintro ⟨e1, e2, e3, e4, e5, e6, e7, e8, e9, e10, e11, e12⟩
      exact ⟨e1.symm, e2.symm, e3.symm, balanceDefaulted_symm e4, e5.symm,
        e6.symm, e7.symm, e8.symm, e9.symm, e10.symm, e11.symm, e12.symm⟩
    · rintro ⟨e1, e2, e3, e4, e5, e6, e7, e8, e9, e10, e11, e12⟩
      exact ⟨e1.symm, e2.symm, e3.symm, balanceDefaulted_symm e4, e5.symm,
        e6.symm, e7.symm, e8.symm, e9.symm, e10.symm, e11.symm, e12.symm⟩
  · intro a b h1 h2 h3 hbal hci hfall hrise h8 h9 h10 h11 hnet hne
    have hbne : ¬ b.Network = "" := by rw [← hnet]; exact hne
    constructor
    · rw [ServiceConfig.equal_spec]
      exact ⟨h1, h2, h3, hbal, intDefaulted_normDefault hci,
        intDefaulted_normDefault hfall, intDefaulted_normDefault hrise,
        h8, h9, h10, h11, by rw [if_neg hne, hnet]⟩
    · rw [ServiceConfig.equal_spec]
      exact ⟨h1.symm, h2.symm, h3.symm, balanceDefaulted_symm hbal,
        (intDefaulted_normDefault hci).symm,
        (intDefaulted_normDefault hfall).symm,
        (intDefaulted_normDefault hrise).symm,
        h8.symm, h9.symm, h10.symm, h11.symm, by rw [if_neg hbne, hnet]⟩

/-- C3, witness for the amended theorem: symmetry at two explicit
configs with non-empty networks, and both-ways equality of a config
relying on the check-interval and balance defaults against one that
writes them out. -/
theorem serviceConfig_Equal_amended_witness :
    (ServiceConfig.Equal netTcpCfg ciZeroCfg = ServiceConfig.Equal ciZeroCfg netTcpCfg) ∧
    (ServiceConfig.Equal ciZeroCfg netTcpCfg = true ∧
     ServiceConfig.Equal netTcpCfg ciZeroCfg = true) :=
  ⟨serviceConfig_Equal_amended.1 netTcpCfg ciZeroCfg (by decide) (by decide),
   serviceConfig_Equal_amended.2 ciZeroCfg netTcpCfg rfl rfl rfl
     (Or.inr (Or.inl ⟨rfl, rfl⟩)) (Or.inr (Or.inl ⟨rfl, rfl⟩))
     (Or.inl rfl) (Or.inl rfl) rfl rfl rfl rfl rfl (by decide)⟩

/-- C9: `ServiceConfig.DeepEqual` compares backends only pairwise by
matching names; whenever the two configs are `Equal` ignoring backends,
the backend lists have equal length and all same-named pairs are
`Equal`, it returns `true` — even when some backend name occurs in only
one of the lists. -/
theorem serviceConfig_DeepEqual_pairwise (s other : ServiceConfig)
    (hlen : s.Backends.length = other.Backends.length)
    (heq : s.Equal other = true)
    (hpair : ∀ a ∈ s.Backends, ∀ b ∈ other.Backends,
      a.Name = b.Name → a.Equal b = true) :
    s.DeepEqual other = true := by
  unfold ServiceConfig.DeepEqual
  rw [if_neg (by simp [hlen]), if_neg (by simp [heq])]
  rw [List.all_eq_true]
  intro a ha
  cases hfind : other.Backends.find? (fun b => a.Name == b.Name) with
  | none => rfl
  | some b =>
    have hb := List.mem_of_find?_eq_some hfind
    have hnm := List.find?_some hfind
    simp only [beq_iff_eq] at hnm
    exact hpair a ha b hb hnm

/-- C9, witness: two configs with one backend each, the backends bearing
different names, so no name is common to both lists; `DeepEqual` is
`true`. -/
theorem serviceConfig_DeepEqual_pairwise_witness :
    ServiceConfig.DeepEqual
      { netTcpCfg with Backends := [⟨"x", "10.0.0.1:80", "", 1, "tcp"⟩] }
      { netTcpCfg with Backends := [⟨"y", "10.0.0.2:80", "", 1, "tcp"⟩] } = true :=
  serviceConfig_DeepEqual_pairwise _ _ rfl (by decide) (by decide)

/-- C7: `writeStateConfig` rewrites the state file iff the state path is
set, the marshalled config is non-empty, and the marshalled bytes differ
from the previous file contents; in every no-write case the file is
unchanged, and on a write it holds exactly the marshalled config. -/
theorem writeStateConfig_spec (p cfg lastCfg : String) :
    ((writeStateConfig p cfg lastCfg).wrote = true ↔
      (¬ p = "" ∧ ¬ cfg.length = 0 ∧ ¬ cfg = lastCfg)) ∧
    ((writeStateConfig p cfg lastCfg).wrote = false →
      (writeStateConfig p cfg lastCfg).file = lastCfg) ∧
    ((writeStateConfig p cfg lastCfg).wrote = true →
      (writeStateConfig p cfg lastCfg).file = cfg) := by
  unfold writeStateConfig
  split_ifs <;> simp_all

/-- C7, witness: at a concrete state path, config and previous contents,
the write happens and the file afterwards holds the new config. -/
theorem writeStateConfig_spec_witness :
    ((writeStateConfig "state.json" "cfg1" "cfg0").wrote = true ↔
      (¬ "state.json" = "" ∧ ¬ ("cfg1" : String).length = 0 ∧
       ¬ "cfg1" = "cfg0")) ∧
    ((writeStateConfig "state.json" "cfg1" "cfg0").wrote = false →
      (writeStateConfig "state.json" "cfg1" "cfg0").file = "cfg0") ∧
    ((writeStateConfig "state.json" "cfg1" "cfg0").wrote = true →
      (writeStateConfig "state.json" "cfg1" "cfg0").file = "cfg1") :=
  writeStateConfig_spec "state.json" "cfg1" "cfg0"

/-- C2, counterexample: with an empty candidate list every dial has
trivially failed, the client connection is closed, but the service-level
error counter is not incremented — `connectTCP` leaves it unchanged. -/
theorem connectTCP_no_service_error_increment :
    (connectTCP 0 []).clientClosed = true ∧
    ¬ (connectTCP 0 []).svcErrors = 0 + 1 := by
  constructor
  · rfl
  · simp [connectTCP]

/-- C2, amended: each failed dial before the first success increments
that backend's error counter and the walk moves to the next candidate;
on the first successful dial the connection is proxied to that backend
and the rest are untouched; if every candidate's dial fails (including
the empty-list case) the client connection is closed and the
service-level error counter is unchanged. -/
theorem connectTCP_walk (svcErrors : Int) (l : List (Backend × Bool)) :
    connectTCP svcErrors l =
      { backends :=
          (l.takeWhile (fun p => !p.2)).map
            (fun p => { p.1 with Errors := p.1.Errors + 1 }) ++
            (l.dropWhile (fun p => !p.2)).map Prod.fst,
        proxied := ((l.dropWhile (fun p => !p.2)).head?).map (fun p => p.1.Name),
        clientClosed := (l.dropWhile (fun p => !p.2)).isEmpty,
        svcErrors := svcErrors } := by
  induction l with
  | nil => rfl
  | cons p rest ih =>
    obtain ⟨b, ok⟩ := p
    cases ok with
    | true => simp [connectTCP, List.takeWhile_cons, List.dropWhile_cons]
    | false => simp [connectTCP, List.takeWhile_cons, List.dropWhile_cons, ih]

/-- C4: evaluating `Service.add` at the failing input — a `tcp` service
and a `udp` backend.  The mismatch is only logged; the backend is
installed in the service's backend list all the same. -/
theorem service_add_mismatched_backend_still_added :
    (tcpSvc.add udpBackend).1.Backends.map Backend.Name = ["b1"] ∧
    (tcpSvc.add udpBackend).1.Backends.map Backend.Network = ["udp"] ∧
    (tcpSvc.add udpBackend).2 = [.mismatchLogged "b1", .started "b1"] := by
  refine ⟨?_, ?_, ?_⟩ <;> decide

/-- C5, counterexample: on a permanent (non-temporary) send error the
`runUDP` loop logs, increments the service error counter — and keeps
running; it does not terminate as claimed. -/
theorem runUDP_permanent_send_error_continues :
    (runUDPStep ⟨0, 0, 0⟩ permSendEvt).2 = true ∧
    (runUDPStep ⟨0, 0, 0⟩ permSendEvt).1.Errors = 1 := by
  constructor <;> rfl

/-- C5, amended: for a non-empty datagram sent to a backend, a
temporary send error leaves `sent` unchanged and the loop continues; a
permanent send error increments the service error counter and the loop
also continues (only permanent receive errors and listener closure
terminate it); a successful send adds the written byte count to
`sent`. -/
theorem runUDP_send_spec (s : UdpState) (n m : Int) (hn : ¬ n = 0) :
    (runUDPStep s ⟨n, none, true, some .temporary, m⟩ =
      ({ s with Rcvd := s.Rcvd + n }, true)) ∧
    (runUDPStep s ⟨n, none, true, some .permanent, m⟩ =
      ({ s with Rcvd := s.Rcvd + n, Errors := s.Errors + 1 }, true)) ∧
    (runUDPStep s ⟨n, none, true, none, m⟩ =
      ({ s with Rcvd := s.Rcvd + n, Sent := s.Sent + m }, true)) := by
  unfold runUDPStep
  simp [hn]

/-- C5, witness for the amended theorem at a concrete state and
byte counts. -/
theorem runUDP_send_spec_witness :
    (runUDPStep ⟨0, 0, 0⟩ ⟨1, none, true, some .temporary, 7⟩ =
      ({ Rcvd := 0 + 1, Sent := 0, Errors := 0 }, true)) ∧
    (runUDPStep ⟨0, 0, 0⟩ ⟨1, none, true, some .permanent, 7⟩ =
      ({ Rcvd := 0 + 1, Sent := 0, Errors := 0 + 1 }, true)) ∧
    (runUDPStep ⟨0, 0, 0⟩ ⟨1, none, true, none, 7⟩ =
      ({ Rcvd := 0 + 1, Sent := 0 + 7, Errors := 0 }, true)) :=
  runUDP_send_spec ⟨0, 0, 0⟩ 1 7 (by decide)

lemma statsLoop_Sent (l : List Backend) (st : ServiceStat) :
    (statsLoop st l).Sent = st.Sent + (l.map Backend.Sent).sum := by
  induction l generalizing st with
  | nil => simp [statsLoop]
  | cons b rest ih => simp [statsLoop, ih]; omega

lemma statsLoop_Rcvd (l : List Backend) (st : ServiceStat) :
    (statsLoop st l).Rcvd = st.Rcvd + (l.map Backend.Rcvd).sum := by
  induction l generalizing st with
  | nil => simp [statsLoop]
  | cons b rest ih => simp [statsLoop, ih]; omega

lemma statsLoop_Errors (l : List Backend) (st : ServiceStat) :
    (statsLoop st l).Errors = st.Errors + (l.map Backend.Errors).sum := by
  induction l generalizing st with
  | nil => simp [statsLoop]
  | cons b rest ih => simp [statsLoop, ih]; omega

lemma statsLoop_Conns (l : List Backend) (st : ServiceStat) :
    (statsLoop st l).Conns = st.Conns + (l.map Backend.Conns).sum := by
  induction l generalizing st with
  | nil => simp [statsLoop]
  | cons b rest ih => simp [statsLoop, ih]; omega

lemma statsLoop_Active (l : List Backend) (st : ServiceStat) :
    (statsLoop st l).Active = st.Active + (l.map Backend.Active).sum := by
  induction l generalizing st with
  | nil => simp [statsLoop]
  | cons b rest ih => simp [statsLoop, ih]; omega

/-- C6, counterexample: a service with five recorded errors of its own
and no backends reports zero errors from `Stats` — the service's own
error counter is not part of the aggregate. -/
theorem service_Stats_omits_service_errors :
    errOnlySvc.Errors = 5 ∧ errOnlySvc.Backends = [] ∧
    ¬ errOnlySvc.Stats.Errors = 5 := by
  refine ⟨rfl, rfl, ?_⟩
  simp [errOnlySvc, Service.Stats, statsLoop]

/-- C6, amended: `Stats` returns `sent` and `rcvd` equal to the
service's own counter plus the sum over its backends, but `errors`,
`conns` and `active` are the backend sums alone: the service-level
error counter is not included, and the service has no `conns`/`active`
counters of its own on this path (the HTTP counters are reported
separately). -/
theorem service_Stats_spec (s : Service) :
    s.Stats.Sent = s.Sent + (s.Backends.map Backend.Sent).sum ∧
    s.Stats.Rcvd = s.Rcvd + (s.Backends.map Backend.Rcvd).sum ∧
    s.Stats.Errors = (s.Backends.map Backend.Errors).sum ∧
    s.Stats.Conns = (s.Backends.map Backend.Conns).sum ∧
    s.Stats.Active = (s.Backends.map Backend.Active).sum := by
  refine ⟨?_, ?_, ?_, ?_, ?_⟩ <;>
    simp [Service.Stats, statsLoop_Sent, statsLoop_Rcvd, statsLoop_Errors,
      statsLoop_Conns, statsLoop_Active]

/-- C10: `UpdateDefaults` always returns nil and is exactly the
simultaneous update of the six tunables, each taken from the config
when non-zero and kept otherwise; every other field of the service —
name, address, balance, network, backends, virtual hosts, counters,
round-robin state, error pages — is untouched. -/
theorem service_UpdateDefaults_spec (s : Service) (cfg : ServiceConfig) :
    s.UpdateDefaults cfg =
      ({ s with
          CheckInterval :=
            if cfg.CheckInterval ≠ 0 then cfg.CheckInterval else s.CheckInterval,
          Fall := if cfg.Fall ≠ 0 then cfg.Fall else s.Fall,
          Rise := if cfg.Rise ≠ 0 then cfg.Rise else s.Rise,
          ClientTimeout :=
            if cfg.ClientTimeout ≠ 0 then msToDur cfg.ClientTimeout
            else s.ClientTimeout,
          ServerTimeout :=
            if cfg.ServerTimeout ≠ 0 then msToDur cfg.ServerTimeout
            else s.ServerTimeout,
          DialTimeout :=
            if cfg.DialTimeout ≠ 0 then msToDur cfg.DialTimeout
            else s.DialTimeout }, none) := by
  unfold Service.UpdateDefaults
  split_ifs <;> rfl

lemma fillFromService_Name (s : Service) (b : Backend) :
    (fillFromService s b).Name = b.Name := rfl

lemma addLoop_fresh (nb : Backend) (l : List Backend)
    (h : ¬ nb.Name ∈ l.map Backend.Name) :
    addLoop nb l = (l ++ [nb], [.started nb.Name]) := by
  induction l with
  | nil => rfl
  | cons b rest ih =>
    simp only [List.map_cons, List.mem_cons, not_or] at h
    have hne : ¬ b.Name = nb.Name := fun he => h.1 he.symm
    unfold addLoop
    rw [if_neg hne, ih h.2]
    rfl

lemma addLoop_replace (nb old : Backend) (A B : List Backend)
    (hname : old.Name = nb.Name)
    (hA : ¬ nb.Name ∈ A.map Backend.Name) :
    addLoop nb (A ++ old :: B) =
      (A ++ nb :: B, [.stopped old.Name, .started nb.Name]) := by
  induction A with
  | nil =>
    simp only [List.nil_append]
    unfold addLoop
    rw [if_pos hname]
  | cons a rest ih =>
    simp only [List.map_cons, List.mem_cons, not_or] at hA
    have hne : ¬ a.Name = nb.Name := fun he => hA.1 he.symm
    simp only [List.cons_append]
    unfold addLoop
    rw [if_neg hne, ih hA.2]

lemma addLoop_names (nb : Backend) (l : List Backend) :
    (addLoop nb l).1.map Backend.Name =
      if nb.Name ∈ l.map Backend.Name then l.map Backend.Name
      else l.map Backend.Name ++ [nb.Name] := by
  induction l with
  | nil => simp [addLoop]
  | cons b rest ih =>
    unfold addLoop
    by_cases hb : b.Name = nb.Name
    · rw [if_pos hb]
      simp [hb]
    · rw [if_neg hb]
      have hne : ¬ nb.Name = b.Name := fun he => hb he.symm
      by_cases hm : nb.Name ∈ rest.map Backend.Name <;>
        simp [ih, hm, hne]

lemma addLoop_nodup (nb : Backend) (l : List Backend)
    (h : (l.map Backend.Name).Nodup) :
    ((addLoop nb l).1.map Backend.Name).Nodup := by
  rw [addLoop_names]
  split_ifs with hm
  · exact h
  · simp [List.nodup_append, h, hm]

lemma findIdx?_name_append (nm : String) (A : List Backend) (old : Backend)
    (B : List Backend) (i : Nat)
    (hA : ¬ nm ∈ A.map Backend.Name) (hname : old.Name = nm) :
    List.findIdx? (fun b => b.Name == nm) (A ++ old :: B) i =
      some (A.length + i) := by
  induction A generalizing i with
  | nil => simp [List.findIdx?_cons, hname]
  | cons a rest ih =>
    simp only [List.map_cons, List.mem_cons, not_or] at hA
    have hne : ¬ a.Name = nm := fun he => hA.1 he.symm
    rw [List.cons_append, List.findIdx?_cons, if_neg (by simp [hne]),
      ih (i + 1) hA.2]
    congr 1
    simp only [List.length_cons]
    omega

lemma add_eq (s : Service) (b : Backend) :
    s.add b =
      ({ s with Backends := (addLoop (fillFromService s b) s.Backends).1 },
        (if s.Network.take 3 ≠ (fillFromService s b).Network.take 3 then
          [BEvent.mismatchLogged (fillFromService s b).Name] else []) ++
        (addLoop (fillFromService s b) s.Backends).2) := rfl

lemma remove_eq_none (s : Service) (nm : String)
    (hf : List.findIdx? (fun b => b.Name == nm) s.Backends = none) :
    s.remove nm = (s, false, []) := by
  unfold Service.remove
  rw [hf]

lemma remove_eq_found (s : Service) (nm : String) (i : Nat)
    (hf : List.findIdx? (fun b => b.Name == nm) s.Backends = some i) :
    s.remove nm =
      ({ s with Backends :=
          (s.Backends.set i
            (s.Backends.getD (s.Backends.length - 1) default)).dropLast },
        true, [.stopped (s.Backends.getD i default).Name]) := by
  unfold Service.remove
  rw [hf]

lemma swap_remove_core (A B : List Backend) (old : Backend) :
    (((A ++ old :: B).set A.length
        ((A ++ old :: B).getD ((A ++ old :: B).length - 1) default)).dropLast).Perm
      (A ++ B) ∧
    (((A ++ old :: B).set A.length
        ((A ++ old :: B).getD ((A ++ old :: B).length - 1) default)).dropLast).length
      = (A ++ old :: B).length - 1 := by
  rcases List.eq_nil_or_concat B with rfl | ⟨B', z, rfl⟩
  · have hgd : (A ++ [old]).getD ((A ++ [old]).length - 1) default = old := by
      rw [List.getD_eq_getElem?_getD]
      have hl : (A ++ [old]).length - 1 = A.length := by simp
      rw [hl, List.getElem?_concat_length]
      rfl
    rw [hgd, List.set_append, if_neg (by omega)]
    simp only [Nat.sub_self, List.set_cons_zero]
    rw [List.dropLast_concat]
    exact ⟨by simp, by simp⟩
  · simp only [List.concat_eq_append]
    have hassoc : A ++ old :: (B' ++ [z]) = (A ++ old :: B') ++ [z] := by simp
    rw [hassoc]
    have hlen : ((A ++ old :: B') ++ [z]).length - 1 = (A ++ old :: B').length := by
      simp
    have hgd : ((A ++ old :: B') ++ [z]).getD
        (((A ++ old :: B') ++ [z]).length - 1) default = z := by
      rw [List.getD_eq_getElem?_getD, hlen, List.getElem?_concat_length]
      rfl
    rw [hgd, List.set_append, if_pos (by simp), List.dropLast_concat]
    have hset : (A ++ old :: B').set A.length z = A ++ z :: B' := by
      rw [List.set_append, if_neg (by omega)]
      simp only [Nat.sub_self, List.set_cons_zero]
    rw [hset]
    constructor
    · have h1 : (z :: B').Perm (B' ++ [z]) := (List.perm_append_singleton z B').symm
      exact List.Perm.append_left A h1
    · simp

lemma wrap64_lb (x : Int) : -(2 ^ 63) ≤ wrap64 x := by
  unfold wrap64
  omega

lemma wrap64_ub (x : Int) : wrap64 x < 2 ^ 63 := by
  unfold wrap64
  omega

lemma wrap64_eq_self {x : Int} (h1 : -(2 ^ 63) ≤ x) (h2 : x < 2 ^ 63) :
    wrap64 x = x := by
  unfold wrap64
  omega

lemma tdiv_mul_le_self {x : Int} (hx : 0 ≤ x) :
    x.tdiv 1000000 * 1000000 ≤ x := by
  have h := Int.tdiv_add_tmod x 1000000
  have hr := Int.tmod_nonneg 1000000 hx
  omega

lemma tdiv_mul_bounds {d : Int} (h1 : -(2 ^ 63) ≤ d) (h2 : d < 2 ^ 63) :
    -(2 ^ 63) ≤ d.tdiv 1000000 * 1000000 ∧
      d.tdiv 1000000 * 1000000 < 2 ^ 63 := by
  rcases le_or_lt 0 d with hd | hd
  · have hle := tdiv_mul_le_self hd
    have hq : 0 ≤ d.tdiv 1000000 := Int.tdiv_nonneg hd (by norm_num)
    omega
  · have hd2 : 0 ≤ -d := by omega
    have hle := tdiv_mul_le_self hd2
    have hq : 0 ≤ (-d).tdiv 1000000 := Int.tdiv_nonneg hd2 (by norm_num)
    have hneg : (-d).tdiv 1000000 = -d.tdiv 1000000 := Int.neg_tdiv d 1000000
    rw [hneg] at hle hq
    omega

lemma durToMs_msToDur_cancel {d : Int} (h1 : -(2 ^ 63) ≤ d)
    (h2 : d < 2 ^ 63) : durToMs (msToDur (durToMs d)) = durToMs d := by
  unfold durToMs msToDur
  have hb := tdiv_mul_bounds h1 h2
  rw [wrap64_eq_self hb.1 hb.2]
  rw [Int.mul_tdiv_cancel _ (by norm_num)]

lemma msdur_fix (c : Int) :
    durToMs (msToDur (durToMs (msToDur c))) = durToMs (msToDur c) := by
  have h1 : -(2 ^ 63) ≤ msToDur c := by unfold msToDur; exact wrap64_lb _
  have h2 : msToDur c < 2 ^ 63 := by unfold msToDur; exact wrap64_ub _
  exact durToMs_msToDur_cancel h1 h2

lemma ite_mkService (c : Prop) [Decidable c]
    (n1 a1 : String) (v1 : List String) (bk1 : List Backend) (b1 : String)
    (ci1 f1 r1 ct1 st1 dt1 se1 rc1 er1 hc1 he1 ha1 : Int) (nw1 : String)
    (lb1 lc1 : Int) (ep1 : ErrorPagesCfg)
    (n2 a2 : String) (v2 : List String) (bk2 : List Backend) (b2 : String)
    (ci2 f2 r2 ct2 st2 dt2 se2 rc2 er2 hc2 he2 ha2 : Int) (nw2 : String)
    (lb2 lc2 : Int) (ep2 : ErrorPagesCfg) :
    (if c then
       Service.mk n1 a1 v1 bk1 b1 ci1 f1 r1 ct1 st1 dt1 se1 rc1 er1 hc1 he1
         ha1 nw1 lb1 lc1 ep1
     else
       Service.mk n2 a2 v2 bk2 b2 ci2 f2 r2 ct2 st2 dt2 se2 rc2 er2 hc2 he2
         ha2 nw2 lb2 lc2 ep2) =
      Service.mk (if c then n1 else n2) (if c then a1 else a2)
        (if c then v1 else v2) (if c then bk1 else bk2) (if c then b1 else b2)
        (if c then ci1 else ci2) (if c then f1 else f2) (if c then r1 else r2)
        (if c then ct1 else ct2) (if c then st1 else st2)
        (if c then dt1 else dt2) (if c then se1 else se2)
        (if c then rc1 else rc2) (if c then er1 else er2)
        (if c then hc1 else hc2) (if c then he1 else he2)
        (if c then ha1 else ha2) (if c then nw1 else nw2)
        (if c then lb1 else lb2) (if c then lc1 else lc2)
        (if c then ep1 else ep2) := by
  split <;> rfl

lemma NewService_eq (cfg : ServiceConfig) :
    NewService cfg =
      cfg.Backends.foldl (fun s b => (s.add (NewBackend b)).1)
        (newServiceInit cfg) := by
  unfold NewService newServiceInit
  simp only [apply_ite Service.Name, apply_ite Service.Addr,
    apply_ite Service.VirtualHosts, apply_ite Service.Backends,
    apply_ite Service.Balance, apply_ite Service.CheckInterval,
    apply_ite Service.Fall, apply_ite Service.Rise,
    apply_ite Service.ClientTimeout, apply_ite Service.ServerTimeout,
    apply_ite Service.DialTimeout, apply_ite Service.Sent,
    apply_ite Service.Rcvd, apply_ite Service.Errors,
    apply_ite Service.HTTPConns, apply_ite Service.HTTPErrors,
    apply_ite Service.HTTPActive, apply_ite Service.Network,
    apply_ite Service.lastBackend, apply_ite Service.lastCount,
    apply_ite Service.errPagesCfg, ite_mkService, ite_self]

lemma foldl_add_scalars (l : List BackendConfig) (s : Service) :
    (l.foldl (fun s b => (s.add (NewBackend b)).1) s).Name = s.Name ∧
    (l.foldl (fun s b => (s.add (NewBackend b)).1) s).Addr = s.Addr ∧
    (l.foldl (fun s b => (s.add (NewBackend b)).1) s).VirtualHosts
      = s.VirtualHosts ∧
    (l.foldl (fun s b => (s.add (NewBackend b)).1) s).Balance = s.Balance ∧
    (l.foldl (fun s b => (s.add (NewBackend b)).1) s).CheckInterval
      = s.CheckInterval ∧
    (l.foldl (fun s b => (s.add (NewBackend b)).1) s).Fall = s.Fall ∧
    (l.foldl (fun s b => (s.add (NewBackend b)).1) s).Rise = s.Rise ∧
    (l.foldl (fun s b => (s.add (NewBackend b)).1) s).ClientTimeout
      = s.ClientTimeout ∧
    (l.foldl (fun s b => (s.add (NewBackend b)).1) s).ServerTimeout
      = s.ServerTimeout ∧
    (l.foldl (fun s b => (s.add (NewBackend b)).1) s).DialTimeout
      = s.DialTimeout ∧
    (l.foldl (fun s b => (s.add (NewBackend b)).1) s).errPagesCfg
      = s.errPagesCfg ∧
    (l.foldl (fun s b => (s.add (NewBackend b)).1) s).Network = s.Network := by
  induction l generalizing s with
  | nil =>
    exact ⟨rfl, rfl, rfl, rfl, rfl, rfl, rfl, rfl, rfl, rfl, rfl, rfl⟩
  | cons b rest ih =>
    simp only [List.foldl_cons]
    exact ih ((s.add (NewBackend b)).1)

lemma mem_addLoop {x nb : Backend} {l : List Backend}
    (hx : x ∈ (addLoop nb l).1) : x ∈ l ∨ x = nb := by
  induction l with
  | nil =>
    simp only [addLoop, List.mem_singleton] at hx
    exact Or.inr hx
  | cons b rest ih =>
    unfold addLoop at hx
    by_cases hb : b.Name = nb.Name
    · rw [if_pos hb] at hx
      simp only [List.mem_cons] at hx
      rcases hx with h | h
      · exact Or.inr h
      · exact Or.inl (List.mem_cons_of_mem b h)
    · rw [if_neg hb] at hx
      simp only [List.mem_cons] at hx
      rcases hx with h | h
      · exact Or.inl (h ▸ List.mem_cons_self b rest)
      · rcases ih h with h2 | h2
        · exact Or.inl (List.mem_cons_of_mem b h2)
        · exact Or.inr h2

lemma foldl_add_backend_fields (l : List BackendConfig) (s : Service)
    (hs : ∀ x ∈ s.Backends, ¬ x.Weight = 0 ∧ ¬ x.Network = "") :
    ∀ x ∈ (l.foldl (fun s b => (s.add (NewBackend b)).1) s).Backends,
      ¬ x.Weight = 0 ∧ ¬ x.Network = "" := by
  induction l generalizing s with
  | nil => exact hs
  | cons b rest ih =>
    simp only [List.foldl_cons]
    refine ih _ ?_
    intro x hx
    rw [add_eq] at hx
    rcases mem_addLoop hx with h | rfl
    · exact hs x h
    · constructor
      · show ¬ (if b.Weight = 0 then (1 : Int) else b.Weight) = 0
        split_ifs with h
        · norm_num
        · exact h
      · show ¬ (if b.Network = "" then "tcp" else b.Network) = ""
        split_ifs with h
        · simp
        · exact h

lemma foldl_add_nodup (l : List BackendConfig) (s : Service)
    (hs : (s.Backends.map Backend.Name).Nodup) :
    ((l.foldl (fun s b => (s.add (NewBackend b)).1) s).Backends.map
      Backend.Name).Nodup := by
  induction l generalizing s with
  | nil => exact hs
  | cons b rest ih =>
    simp only [List.foldl_cons]
    exact ih _ (addLoop_nodup _ _ hs)

lemma backendConfig_fix {b : Backend} (hw : ¬ b.Weight = 0)
    (hn : ¬ b.Network = "") (s : Service) :
    (fillFromService s (NewBackend b.Config)).Config = b.Config := by
  show BackendConfig.mk b.Name b.Addr b.CheckAddr
      (if b.Weight = 0 then 1 else b.Weight)
      (if b.Network = "" then "tcp" else b.Network) = b.Config
  rw [if_neg hw, if_neg hn]
  rfl

lemma foldl_add_configs (bs : List Backend) (s : Service)
    (hw : ∀ x ∈ bs, ¬ x.Weight = 0 ∧ ¬ x.Network = "")
    (hnd : (bs.map Backend.Name).Nodup)
    (hdisj : ∀ x ∈ bs, ¬ x.Name ∈ s.Backends.map Backend.Name) :
    ((bs.map Backend.Config).foldl (fun s b => (s.add (NewBackend b)).1)
      s).Backends.map Backend.Config
        = s.Backends.map Backend.Config ++ bs.map Backend.Config := by
  induction bs generalizing s with
  | nil => simp
  | cons b rest ih =>
    simp only [List.map_cons, List.foldl_cons]
    have hfresh : ¬ (fillFromService s (NewBackend b.Config)).Name
        ∈ s.Backends.map Backend.Name :=
      hdisj b (List.mem_cons_self b rest)
    have hstep : (s.add (NewBackend b.Config)).1.Backends
        = s.Backends ++ [fillFromService s (NewBackend b.Config)] := by
      rw [add_eq, addLoop_fresh _ _ hfresh]
    have h0 : ¬ b.Name ∈ rest.map Backend.Name ∧
        (rest.map Backend.Name).Nodup := by
      rw [List.map_cons, List.nodup_cons] at hnd
      exact hnd
    have hndr := h0.2
    have hbn := h0.1
    rw [ih ((s.add (NewBackend b.Config)).1)
      (fun x hx => hw x (List.mem_cons_of_mem b hx)) hndr ?hdisj2]
    case hdisj2 =>
      intro x hx hmem
      rw [hstep, List.map_append] at hmem
      rcases List.mem_append.mp hmem with h | h
      · exact hdisj x (List.mem_cons_of_mem b hx) h
      · have hxb : x.Name = b.Name := by simpa using h
        exact hbn (hxb ▸ List.mem_map_of_mem Backend.Name hx)
    rw [hstep, List.map_append]
    simp only [List.map_cons, List.map_nil]
    rw [backendConfig_fix (hw b (List.mem_cons_self b rest)).1
        (hw b (List.mem_cons_self b rest)).2 s]
    simp


/-- C8: backend-list surgery.  Adding preserves name uniqueness; adding
under an existing name replaces that backend in place at the same index
(stopping the old instance before starting the new, length unchanged);
adding a fresh name appends; removing returns failure exactly when no
backend has the name, leaves the service unchanged in that case, and
otherwise stops exactly the named backend, shrinks the list by one
(permuting the survivors: the last entry is swapped into the vacated
slot) and keeps names unique. -/
theorem service_backend_ops_spec :
    (∀ (s : Service) (b : Backend), (s.Backends.map Backend.Name).Nodup →
      ((s.add b).1.Backends.map Backend.Name).Nodup) ∧
    (∀ (s : Service) (nb old : Backend) (A B : List Backend),
      s.Backends = A ++ old :: B → old.Name = nb.Name →
      ¬ nb.Name ∈ A.map Backend.Name →
      (s.add nb).1.Backends = A ++ fillFromService s nb :: B ∧
      (s.add nb).1.Backends.length = s.Backends.length ∧
      ∃ pre, (s.add nb).2 = pre ++ [.stopped old.Name, .started nb.Name]) ∧
    (∀ (s : Service) (nb : Backend),
      ¬ nb.Name ∈ s.Backends.map Backend.Name →
      (s.add nb).1.Backends = s.Backends ++ [fillFromService s nb] ∧
      ∃ pre, (s.add nb).2 = pre ++ [.started nb.Name]) ∧
    (∀ (s : Service) (nm : String),
      ((s.remove nm).2.1 = false ↔ ¬ nm ∈ s.Backends.map Backend.Name) ∧
      ((s.remove nm).2.1 = false →
        (s.remove nm).1 = s ∧ (s.remove nm).2.2 = []) ∧
      (∀ (old : Backend) (A B : List Backend),
        s.Backends = A ++ old :: B → old.Name = nm →
        ¬ nm ∈ A.map Backend.Name →
        (s.remove nm).2.1 = true ∧
        (s.remove nm).2.2 = [.stopped nm] ∧
        (s.remove nm).1.Backends.length = s.Backends.length - 1 ∧
        (s.remove nm).1.Backends.Perm (A ++ B) ∧
        ((s.Backends.map Backend.Name).Nodup →
          ((s.remove nm).1.Backends.map Backend.Name).Nodup))) := by
  refine ⟨?_, ?_, ?_, ?_⟩
  · intro s b hnd
    exact addLoop_nodup _ _ hnd
  · intro s nb old A B hs hname hA
    have hrepl := addLoop_replace (fillFromService s nb) old A B hname hA
    refine ⟨?_, ?_, ?_⟩
    · rw [add_eq s nb, hs, hrepl]
    · rw [add_eq s nb, hs, hrepl]
      simp
    · rw [add_eq s nb, hs, hrepl]
      exact ⟨_, rfl⟩
  · intro s nb hfresh
    have hf := addLoop_fresh (fillFromService s nb) s.Backends hfresh
    refine ⟨?_, ?_⟩
    · rw [add_eq s nb, hf]
    · rw [add_eq s nb, hf]
      exact ⟨_, rfl⟩
  · intro s nm
    have hiff : List.findIdx? (fun b => b.Name == nm) s.Backends = none ↔
        ¬ nm ∈ s.Backends.map Backend.Name := by
      rw [List.findIdx?_eq_none_iff]
      simp only [List.mem_map, not_exists, not_and, beq_eq_false_iff_ne, ne_eq]
    refine ⟨?_, ?_, ?_⟩
    · rcases hf : List.findIdx? (fun b => b.Name == nm) s.Backends with - | i
      · rw [remove_eq_none s nm hf]
        simp [hiff.mp hf]
      · rw [remove_eq_found s nm i hf]
        have hmem : nm ∈ s.Backends.map Backend.Name := by
          by_contra hc
          have hnone := hiff.mpr hc
          rw [hnone] at hf
          simp at hf
        simp [hmem]
    · rcases hf : List.findIdx? (fun b => b.Name == nm) s.Backends with - | i
      · rw [remove_eq_none s nm hf]
        intro _
        exact ⟨rfl, rfl⟩
      · rw [remove_eq_found s nm i hf]
        intro h
        simp at h
    · intro old A B hs hname hA
      have hf0 := findIdx?_name_append nm A old B 0 hA hname
      rw [Nat.add_zero] at hf0
      have hf : List.findIdx? (fun b => b.Name == nm) s.Backends = some A.length := by
        rw [hs]
        exact hf0
      have hdel : (A ++ old :: B).getD A.length default = old := by
        rw [List.getD_eq_getElem?_getD, List.getElem?_append_right (le_refl _)]
        simp
      have hcore := swap_remove_core A B old
      rw [remove_eq_found s nm A.length hf]
      refine ⟨rfl, ?_, ?_, ?_, ?_⟩
      · show [BEvent.stopped (s.Backends.getD A.length default).Name] = _
        rw [hs, hdel, hname]
      · show ((s.Backends.set A.length
            (s.Backends.getD (s.Backends.length - 1) default)).dropLast).length = _
        rw [hs]
        exact hcore.2
      · show ((s.Backends.set A.length
            (s.Backends.getD (s.Backends.length - 1) default)).dropLast).Perm _
        rw [hs]
        exact hcore.1
      · intro hnd
        rw [hs] at hnd
        have hsub : (A ++ B).Sublist (A ++ old :: B) :=
          (List.sublist_cons_self old B).append_left A
        have hABnd : ((A ++ B).map Backend.Name).Nodup :=
          List.Nodup.sublist (hsub.map Backend.Name) hnd
        show ((((s.Backends.set A.length
            (s.Backends.getD (s.Backends.length - 1) default)).dropLast).map
              Backend.Name).Nodup)
        rw [hs]
        exact ((hcore.1.map Backend.Name).symm).nodup hABnd

/-- C8, witness: on a service holding backends `a` and `b` — adding a
fresh backend `c` keeps names unique and appends; re-adding name `b` at
a new address replaces it in place after stopping the old one; removing
`a` succeeds, stops it, shrinks the list and keeps names unique. -/
theorem service_backend_ops_spec_witness :
    ((twoBackendSvc.add wb3).1.Backends.map Backend.Name).Nodup ∧
    ((twoBackendSvc.add wb2r).1.Backends =
        [wb1] ++ fillFromService twoBackendSvc wb2r :: [] ∧
      (twoBackendSvc.add wb2r).1.Backends.length =
        twoBackendSvc.Backends.length ∧
      ∃ pre, (twoBackendSvc.add wb2r).2 =
        pre ++ [.stopped wb2.Name, .started wb2r.Name]) ∧
    ((twoBackendSvc.add wb3).1.Backends =
        twoBackendSvc.Backends ++ [fillFromService twoBackendSvc wb3] ∧
      ∃ pre, (twoBackendSvc.add wb3).2 = pre ++ [.started wb3.Name]) ∧
    (((twoBackendSvc.remove "a").2.1 = false ↔
        ¬ "a" ∈ twoBackendSvc.Backends.map Backend.Name) ∧
      ((twoBackendSvc.remove "a").2.1 = true ∧
       (twoBackendSvc.remove "a").2.2 = [.stopped "a"] ∧
       (twoBackendSvc.remove "a").1.Backends.length =
         twoBackendSvc.Backends.length - 1 ∧
       (twoBackendSvc.remove "a").1.Backends.Perm ([] ++ [wb2]) ∧
       ((twoBackendSvc.Backends.map Backend.Name).Nodup →
         ((twoBackendSvc.remove "a").1.Backends.map Backend.Name).Nodup))) :=
  ⟨service_backend_ops_spec.1 twoBackendSvc wb3 (by decide),
   service_backend_ops_spec.2.1 twoBackendSvc wb2r wb2 [wb1] [] rfl rfl
     (by decide),
   service_backend_ops_spec.2.2.1 twoBackendSvc wb3 (by decide),
   (service_backend_ops_spec.2.2.2 twoBackendSvc "a").1,
   (service_backend_ops_spec.2.2.2 twoBackendSvc "a").2.2 wb1 [] [wb2]
     rfl rfl (by decide)⟩

/-- C1: configuration snapshots round-trip through `NewService`.  For
every service config, rebuilding a service from the snapshot of the
service built from it yields an identical snapshot: the default
normalisation performed by `NewService` (check interval, rise, fall,
network, backend weight and network defaults, replacement of same-named
backends) is a fixpoint after the first application. -/
theorem newService_Config_roundtrip (cfg : ServiceConfig) :
    (NewService ((NewService cfg).Config)).Config = (NewService cfg).Config := by
  have h1 := NewService_eq cfg
  obtain ⟨e1, e2, e3, e4, e5, e6, e7, e8, e9, e10, e11, e12⟩ :=
    foldl_add_scalars cfg.Backends (newServiceInit cfg)
  rw [← h1] at e1 e2 e3 e4 e5 e6 e7 e8 e9 e10 e11 e12
  have hci : ¬ (NewService cfg).CheckInterval = 0 := by
    rw [e5]
    show ¬ (if cfg.CheckInterval = 0 then (2000 : Int) else cfg.CheckInterval) = 0
    split_ifs with h
    · norm_num
    · exact h
  have hfall : ¬ (NewService cfg).Fall = 0 := by
    rw [e6]
    show ¬ (if cfg.Fall = 0 then (2 : Int) else cfg.Fall) = 0
    split_ifs with h
    · norm_num
    · exact h
  have hrise : ¬ (NewService cfg).Rise = 0 := by
    rw [e7]
    show ¬ (if cfg.Rise = 0 then (2 : Int) else cfg.Rise) = 0
    split_ifs with h
    · norm_num
    · exact h
  have hnet : ¬ (NewService cfg).Network = "" := by
    rw [e12]
    show ¬ (if cfg.Network = "" then "tcp" else cfg.Network) = ""
    split_ifs with h
    · simp
    · exact h
  have hw : ∀ x ∈ (NewService cfg).Backends,
      ¬ x.Weight = 0 ∧ ¬ x.Network = "" := by
    rw [h1]
    exact foldl_add_backend_fields cfg.Backends (newServiceInit cfg)
      (by intro x hx; simp [newServiceInit] at hx)
  have hnd : ((NewService cfg).Backends.map Backend.Name).Nodup := by
    rw [h1]
    exact foldl_add_nodup cfg.Backends (newServiceInit cfg)
      (by simp [newServiceInit])
  have h2 := NewService_eq ((NewService cfg).Config)
  obtain ⟨f1, f2, f3, f4, f5, f6, f7, f8, f9, f10, f11, f12⟩ :=
    foldl_add_scalars ((NewService cfg).Config).Backends
      (newServiceInit ((NewService cfg).Config))
  rw [← h2] at f1 f2 f3 f4 f5 f6 f7 f8 f9 f10 f11 f12
  have hbk : (NewService ((NewService cfg).Config)).Backends.map Backend.Config
      = ((NewService cfg).Config).Backends := by
    rw [h2]
    have hc1b : ((NewService cfg).Config).Backends
        = (NewService cfg).Backends.map Backend.Config := rfl
    rw [hc1b]
    rw [foldl_add_configs (NewService cfg).Backends
      (newServiceInit ((NewService cfg).Config)) hw hnd
      (by intro x hx h; simp [newServiceInit] at h)]
    simp [newServiceInit]
  show ServiceConfig.mk
      (NewService ((NewService cfg).Config)).Name
      (NewService ((NewService cfg).Config)).Addr
      (NewService ((NewService cfg).Config)).VirtualHosts
      (NewService ((NewService cfg).Config)).Balance
      (NewService ((NewService cfg).Config)).CheckInterval
      (NewService ((NewService cfg).Config)).Fall
      (NewService ((NewService cfg).Config)).Rise
      (durToMs (NewService ((NewService cfg).Config)).ClientTimeout)
      (durToMs (NewService ((NewService cfg).Config)).ServerTimeout)
      (durToMs (NewService ((NewService cfg).Config)).DialTimeout)
      (NewService ((NewService cfg).Config)).errPagesCfg
      (NewService ((NewService cfg).Config)).Network
      ((NewService ((NewService cfg).Config)).Backends.map Backend.Config)
    = ServiceConfig.mk
      (NewService cfg).Name
      (NewService cfg).Addr
      (NewService cfg).VirtualHosts
      (NewService cfg).Balance
      (NewService cfg).CheckInterval
      (NewService cfg).Fall
      (NewService cfg).Rise
      (durToMs (NewService cfg).ClientTimeout)
      (durToMs (NewService cfg).ServerTimeout)
      (durToMs (NewService cfg).DialTimeout)
      (NewService cfg).errPagesCfg
      (NewService cfg).Network
      ((NewService cfg).Backends.map Backend.Config)
  simp only [ServiceConfig.mk.injEq]
  refine ⟨?_, ?_, ?_, ?_, ?_, ?_, ?_, ?_, ?_, ?_, ?_, ?_, ?_⟩
  · rw [f1]
    rfl
  · rw [f2]
    rfl
  · rw [f3]
    rfl
  · rw [f4]
    rfl
  · rw [f5]
    show (if (NewService cfg).CheckInterval = 0 then (2000 : Int)
      else (NewService cfg).CheckInterval) = (NewService cfg).CheckInterval
    rw [if_neg hci]
  · rw [f6]
    show (if (NewService cfg).Fall = 0 then (2 : Int)
      else (NewService cfg).Fall) = (NewService cfg).Fall
    rw [if_neg hfall]
  · rw [f7]
    show (if (NewService cfg).Rise = 0 then (2 : Int)
      else (NewService cfg).Rise) = (NewService cfg).Rise
    rw [if_neg hrise]
  · rw [f8]
    show durToMs (msToDur (durToMs ((NewService cfg).ClientTimeout)))
      = durToMs ((NewService cfg).ClientTimeout)
    rw [e8]
    show durToMs (msToDur (durToMs (msToDur cfg.ClientTimeout)))
      = durToMs (msToDur cfg.ClientTimeout)
    exact msdur_fix cfg.ClientTimeout
  · rw [f9]
    show durToMs (msToDur (durToMs ((NewService cfg).ServerTimeout)))
      = durToMs ((NewService cfg).ServerTimeout)
    rw [e9]
    show durToMs (msToDur (durToMs (msToDur cfg.ServerTimeout)))
      = durToMs (msToDur cfg.ServerTimeout)
    exact msdur_fix cfg.ServerTimeout
  · rw [f10]
    show durToMs (msToDur (durToMs ((NewService cfg).DialTimeout)))
      = durToMs ((NewService cfg).DialTimeout)
    rw [e10]
    show durToMs (msToDur (durToMs (msToDur cfg.DialTimeout)))
      = durToMs (msToDur cfg.DialTimeout)
    exact msdur_fix cfg.DialTimeout
  · rw [f11]
    rfl
  · rw [f12]
    show (if (NewService cfg).Network = "" then "tcp"
      else (NewService cfg).Network) = (NewService cfg).Network
    rw [if_neg hnet]
  · exact hbk

end Shuttle
